import Mathlib

/-!
Shallow embedding of the timeline reindexer, severity classifier, summary
aggregator and fetch handling of `src/app/page.tsx` (dpip-network-web).
The source file contains two revisions of the page component; where they
differ (timeline generation, response decoding) both are embedded.

JS numbers carried by samples (ping/loss) are modelled as rationals `ℚ`;
epoch-millisecond timestamps as integers `ℤ`.
-/

namespace DpipNetworkWeb

/-- `interface NetworkData`: one telemetry sample.
`-1` is the "no measurement" sentinel in every field. -/
structure NetworkData where
  ping : ℚ
  loss : ℚ
  ping_dev : ℚ
  loss_dev : ℚ
  deriving DecidableEq, Repr

/-- The chart/statistics pair selector, `'cloudflare' | 'origin'` in the source. -/
inductive MetricType where
  | cloudflare
  | origin
  deriving DecidableEq, Repr

/-- `type === 'cloudflare' ? item.ping : item.ping_dev` — the value-metric selector
used by `prepareScatterData` and `getStats`. -/
def selPing : MetricType → NetworkData → ℚ
  | .cloudflare, item => item.ping
  | .origin, item => item.ping_dev

/-- `type === 'cloudflare' ? item.loss : item.loss_dev` — the loss-metric selector. -/
def selLoss : MetricType → NetworkData → ℚ
  | .cloudflare, item => item.loss
  | .origin, item => item.loss_dev

/-- The `value` fields of the `TIME_RANGES` constant (minutes); display labels omitted. -/
def TIME_RANGES : List ℕ := [5, 15, 30, 60, 180, 360, 1440]

/-- `getColorByLoss`: the severity classifier, byte-for-byte the `if` chain of the
source (both revisions are identical). -/
def getColorByLoss (loss : ℚ) : String :=
  if loss = -1 then "#9CA3AF"
  else if loss ≤ 0 then "#10B981"
  else if loss ≤ 33 then "#3B82F6"
  else if loss ≤ 66 then "#EF4444"
  else "#8B5CF6"

/-- The `unitMs` branch shared by both revisions of `getAllTimePoints`. -/
def bucketUnitMs (rangeMinutes : ℕ) : ℤ :=
  if rangeMinutes ≤ 60 then 30 * 1000
  else if rangeMinutes ≤ 1440 then 60 * 1000
  else 60 * 60 * 1000

/-- The `points` branch shared by both revisions of `getAllTimePoints`;
`Math.ceil(rangeMinutes / 60)` on a natural number is ceiling division. -/
def bucketPoints (rangeMinutes : ℕ) : ℕ :=
  if rangeMinutes ≤ 60 then rangeMinutes * 2
  else if rangeMinutes ≤ 1440 then rangeMinutes
  else (rangeMinutes + 59) / 60

/-- First-revision `getAllTimePoints`: timestamps stepped backward from `now`
(`now - (points - 1 - index) * unitMs`), emitted oldest first. -/
def getAllTimePoints (rangeMinutes : ℕ) (now : ℤ) : List ℤ :=
  (List.range (bucketPoints rangeMinutes)).map fun (index : ℕ) =>
    now - ((bucketPoints rangeMinutes : ℤ) - 1 - (index : ℤ)) * bucketUnitMs rangeMinutes

/-- Second-revision `getAllTimePoints`: anchored at
`startTime = now - (points - 1) * unitMs` and stepped forward by `index * unitMs`. -/
def getAllTimePointsAnchored (rangeMinutes : ℕ) (now : ℤ) : List ℤ :=
  let startTime := now - ((bucketPoints rangeMinutes : ℤ) - 1) * bucketUnitMs rangeMinutes
  (List.range (bucketPoints rangeMinutes)).map fun (index : ℕ) =>
    startTime + (index : ℤ) * bucketUnitMs rangeMinutes

/-- The bucket-cadence policy written from the spec's words (§4.1), kept as a
separate definition so the embedded `bucketPoints` can be compared against it. -/
def cadencePolicyCount (range : ℕ) : ℕ :=
  if range ≤ 60 then range * 2
  else if range ≤ 1440 then range
  else (range + 59) / 60

theorem length_getAllTimePoints (r : ℕ) (now : ℤ) :
    (getAllTimePoints r now).length = bucketPoints r := by
  rw [getAllTimePoints, List.length_map, List.length_range]

theorem length_getAllTimePointsAnchored (r : ℕ) (now : ℤ) :
    (getAllTimePointsAnchored r now).length = bucketPoints r := by
  rw [getAllTimePointsAnchored, List.length_map, List.length_range]

/-- C1: for every range in the enumerated `TIME_RANGES` set and every `now`, both
revisions of the bucket-timeline generator return exactly the bucket count dictated
by the cadence policy (`range*2` for `range ≤ 60`, `range` for `60 < range ≤ 1440`,
`ceil(range/60)` for `range > 1440`). -/
theorem bucket_count_policy (r : ℕ) (hr : r ∈ TIME_RANGES) (now : ℤ) :
    (getAllTimePoints r now).length = cadencePolicyCount r ∧
    (getAllTimePointsAnchored r now).length = cadencePolicyCount r := by
  rw [length_getAllTimePoints, length_getAllTimePointsAnchored]
  fin_cases hr <;> exact ⟨by decide, by decide⟩

/-- Instantiation of `bucket_count_policy` at range 60: the one-hour timeline has
`cadencePolicyCount 60 = 120` buckets. -/
theorem bucket_count_policy_witness :
    (60 ∈ TIME_RANGES) ∧ (getAllTimePoints 60 0).length = cadencePolicyCount 60 := by
  exact ⟨by decide, (bucket_count_policy 60 (by decide) 0).1⟩

/-- C3: the severity classifier is total and deterministic with upper-inclusive
bands: `-1` maps to the "no data" gray, `loss ≤ 0` (other than `-1`) to healthy
green, `0 < loss ≤ 33` to minor blue, `33 < loss ≤ 66` to major red, and
`loss > 66` to severe purple; in particular the fractional boundary value `66.5`
classifies as severe. -/
theorem classify_bands (l : ℚ) :
    getColorByLoss (-1) = "#9CA3AF" ∧
    (l ≠ -1 → l ≤ 0 → getColorByLoss l = "#10B981") ∧
    (0 < l → l ≤ 33 → getColorByLoss l = "#3B82F6") ∧
    (33 < l → l ≤ 66 → getColorByLoss l = "#EF4444") ∧
    (66 < l → getColorByLoss l = "#8B5CF6") ∧
    getColorByLoss (66.5 : ℚ) = "#8B5CF6" := by
  refine ⟨by rw [getColorByLoss, if_pos rfl], ?_, ?_, ?_, ?_,
    by rw [getColorByLoss, if_neg (by norm_num), if_neg (by norm_num),
      if_neg (by norm_num), if_neg (by norm_num)]⟩
  · intro h1 h2
    rw [getColorByLoss, if_neg h1, if_pos h2]
  · intro h1 h2
    rw [getColorByLoss, if_neg (by intro h; rw [h] at h1; norm_num at h1),
      if_neg (by linarith), if_pos h2]
  · intro h1 h2
    rw [getColorByLoss, if_neg (by intro h; rw [h] at h1; norm_num at h1),
      if_neg (by linarith), if_neg (by linarith), if_pos h2]
  · intro h1
    rw [getColorByLoss, if_neg (by intro h; rw [h] at h1; norm_num at h1),
      if_neg (by linarith), if_neg (by linarith), if_neg (by linarith)]

/-- Instantiation of `classify_bands`: the boundary value 33 is still "minor" blue. -/
theorem classify_bands_witness : getColorByLoss 33 = "#3B82F6" :=
  (classify_bands 33).2.2.1 (by norm_num) (le_refl 33)

theorem getAllTimePoints_getElem (r : ℕ) (now : ℤ) (i : ℕ) (hi : i < bucketPoints r) :
    (getAllTimePoints r now)[i]? =
      some (now - ((bucketPoints r : ℤ) - 1 - (i : ℤ)) * bucketUnitMs r) := by
  rw [getAllTimePoints, List.getElem?_map, List.getElem?_range hi, Option.map_some']

/-- C4: the two bucket-timestamp generation methods agree extensionally — stepping
backward from `now` (first revision) and stepping forward from the anchor
`now - (count-1)*width` (second revision) produce the same sequence; that sequence
is oldest first with bucket `i` at `now - (count-1-i)*width`, consecutive buckets
differ by exactly the bucket width, and the last bucket's timestamp is `now`. -/
theorem timeline_generation_equiv (r : ℕ) (now : ℤ) (h : 0 < bucketPoints r) :
    getAllTimePoints r now = getAllTimePointsAnchored r now ∧
    (∀ i : ℕ, i < bucketPoints r →
      (getAllTimePoints r now)[i]? =
        some (now - ((bucketPoints r : ℤ) - 1 - (i : ℤ)) * bucketUnitMs r)) ∧
    (∀ i : ℕ, i + 1 < bucketPoints r →
      (getAllTimePoints r now)[i + 1]? =
        ((getAllTimePoints r now)[i]?).map (fun x => x + bucketUnitMs r)) ∧
    (getAllTimePoints r now)[bucketPoints r - 1]? = some now := by
  refine ⟨?_, getAllTimePoints_getElem r now, ?_, ?_⟩
  · simp only [getAllTimePoints, getAllTimePointsAnchored]
    refine List.map_congr_left ?_
    intro a _
    ring
  · intro i hi
    rw [getAllTimePoints_getElem r now _ hi,
      getAllTimePoints_getElem r now _ (Nat.lt_of_succ_lt hi), Option.map_some']
    congr 1
    push_cast
    ring
  · rw [getAllTimePoints_getElem r now _ (Nat.sub_lt h Nat.one_pos)]
    congr 1
    have hc : ((bucketPoints r - 1 : ℕ) : ℤ) = (bucketPoints r : ℤ) - 1 := by omega
    rw [hc]
    ring

/-- Instantiation of `timeline_generation_equiv` at range 5, `now = 1000`: the two
generators agree and the last of the ten buckets sits at timestamp 1000. -/
theorem timeline_generation_equiv_witness :
    getAllTimePoints 5 1000 = getAllTimePointsAnchored 5 1000 ∧
    (getAllTimePoints 5 1000)[bucketPoints 5 - 1]? = some 1000 :=
  ⟨(timeline_generation_equiv 5 1000 (by decide)).1,
   (timeline_generation_equiv 5 1000 (by decide)).2.2.2⟩

/-- One chart point produced by `prepareScatterData`.  The locale-formatted
`timeLabel` string is display-only and not modelled. -/
structure DisplayPoint where
  x : ℤ
  y : Option ℚ
  loss : ℚ
  color : String
  hasData : Bool
  deriving DecidableEq, Repr

/-- The translucent fill used for buckets whose value metric is the sentinel. -/
def noDataPointColor : String := "rgba(156, 163, 175, 0.3)"

/-- `prepareScatterData` (identical in both revisions up to where `now` comes
from, which is passed explicitly here): maps each timeline bucket to a
`DisplayPoint`, reading `data[index]` positionally — an out-of-range index makes
`dataItem` undefined and both metrics fall back to `-1`. -/
def prepareScatterData (rangeMinutes : ℕ) (now : ℤ) (data : List NetworkData)
    (t : MetricType) : List DisplayPoint :=
  let allTimePoints := getAllTimePoints rangeMinutes now
  allTimePoints.mapIdx fun index timePoint =>
    let ping : ℚ := match data[index]? with
      | some dataItem => selPing t dataItem
      | none => -1
    let loss : ℚ := match data[index]? with
      | some dataItem => selLoss t dataItem
      | none => -1
    { x := timePoint
      y := if ping = -1 then none else some ping
      loss := loss
      color := if ping = -1 then noDataPointColor else getColorByLoss loss
      hasData := ping != -1 }

/-- C5: the number of `DisplayPoint`s equals the bucket count implied by the
selected range, for every input sample sequence (empty, short, exact or long) —
padding never changes the output length. -/
theorem displayPoint_count (r : ℕ) (now : ℤ) (data : List NetworkData)
    (t : MetricType) :
    (prepareScatterData r now data t).length = bucketPoints r := by
  simp only [prepareScatterData, List.length_mapIdx]
  exact length_getAllTimePoints r now

/-- C2: reindexing is positional.  For each bucket index `i` below the bucket
count: a present sample with non-sentinel value metric lands in bucket `i` with
its value and loss unchanged and `hasData = true`; a missing sample yields
`y = none, loss = -1, hasData = false`; and a present sample whose value metric
is `-1` yields `y = none, hasData = false` with the no-data fill even though the
sample object exists. -/
theorem reindex_positional (r : ℕ) (now : ℤ) (data : List NetworkData)
    (t : MetricType) (i : ℕ) (hi : i < bucketPoints r) :
    (∀ s : NetworkData, data[i]? = some s → selPing t s ≠ -1 →
      (prepareScatterData r now data t)[i]? =
        some { x := now - ((bucketPoints r : ℤ) - 1 - (i : ℤ)) * bucketUnitMs r,
               y := some (selPing t s), loss := selLoss t s,
               color := getColorByLoss (selLoss t s), hasData := true }) ∧
    (data[i]? = none →
      (prepareScatterData r now data t)[i]? =
        some { x := now - ((bucketPoints r : ℤ) - 1 - (i : ℤ)) * bucketUnitMs r,
               y := none, loss := -1, color := noDataPointColor, hasData := false }) ∧
    (∀ s : NetworkData, data[i]? = some s → selPing t s = -1 →
      (prepareScatterData r now data t)[i]? =
        some { x := now - ((bucketPoints r : ℤ) - 1 - (i : ℤ)) * bucketUnitMs r,
               y := none, loss := selLoss t s, color := noDataPointColor,
               hasData := false }) := by
  have hbase : (prepareScatterData r now data t)[i]? =
      ((getAllTimePoints r now)[i]?).map fun timePoint =>
        let ping : ℚ := match data[i]? with
          | some dataItem => selPing t dataItem
          | none => -1
        let loss : ℚ := match data[i]? with
          | some dataItem => selLoss t dataItem
          | none => -1
        { x := timePoint
          y := if ping = -1 then none else some ping
          loss := loss
          color := if ping = -1 then noDataPointColor else getColorByLoss loss
          hasData := ping != -1 } := by
    simp only [prepareScatterData, List.getElem?_mapIdx]
  rw [getAllTimePoints_getElem r now i hi, Option.map_some'] at hbase
  refine ⟨?_, ?_, ?_⟩
  · intro s hs hping
    rw [hbase, hs]
    simp [hping]
  · intro hs
    rw [hbase, hs]
    simp
  · intro s hs hping
    rw [hbase, hs]
    simp [hping]

/-- Instantiation of `reindex_positional` at range 5, one sample, bucket 0:
the sample's ping 10 and loss 2 survive unchanged into the oldest bucket. -/
theorem reindex_positional_witness :
    (prepareScatterData 5 0 [⟨10, 2, 20, 3⟩] MetricType.cloudflare)[0]? =
      some { x := -270000, y := some 10, loss := 2, color := getColorByLoss 2,
             hasData := true } := by
  have h := (reindex_positional 5 0 [⟨10, 2, 20, 3⟩] MetricType.cloudflare 0
    (by decide)).1 ⟨10, 2, 20, 3⟩ rfl (by norm_num [selPing])
  simpa [bucketPoints, bucketUnitMs, selPing, selLoss] using h

/-- The `getStats` return object (`SummaryStats`). -/
structure Stats where
  avgPing : ℤ
  minPing : ℚ
  maxPing : ℚ
  avgLoss : ℚ
  maxLoss : ℚ
  dataPoints : ℕ
  totalPoints : ℕ
  deriving DecidableEq, Repr

/-- JS `Math.round`: nearest integer, half-way cases toward `+∞`
(`Math.round(x) = ⌊x + 0.5⌋`). -/
def jsRound (q : ℚ) : ℤ := Int.floor (q + 1 / 2)

/-- JS `Math.min(...xs)` over a spread list.  `Math.min()` with no arguments is
`+Infinity`; `getStats` only calls it on a list guarded nonempty, so the `[]`
case here is an arbitrary placeholder. -/
def jsMin : List ℚ → ℚ
  | [] => 0
  | a :: rest => rest.foldl min a

/-- JS `Math.max(...xs)`; same caveats as `jsMin`. -/
def jsMax : List ℚ → ℚ
  | [] => 0
  | a :: rest => rest.foldl max a

/-- The `validData` local of `getStats`: samples whose value metric is not the
sentinel `-1`.  Note the filter looks only at the ping metric, never the loss. -/
def validData (data : List NetworkData) (t : MetricType) : List NetworkData :=
  data.filter fun item => selPing t item != -1

/-- `getStats`: bails out with `null` when no valid samples remain, otherwise
aggregates.  `avgLoss` is `Math.round(mean * 100) / 100`, i.e. two-decimal
rounding. -/
def getStats (data : List NetworkData) (t : MetricType) : Option Stats :=
  if (validData data t).length = 0 then none
  else
    let pings := (validData data t).map (selPing t)
    let losses := (validData data t).map (selLoss t)
    some
      { avgPing := jsRound (pings.sum / (pings.length : ℚ))
        minPing := jsMin pings
        maxPing := jsMax pings
        avgLoss := (jsRound (losses.sum / (losses.length : ℚ) * 100) : ℚ) / 100
        maxLoss := jsMax losses
        dataPoints := (validData data t).length
        totalPoints := data.length }

theorem foldl_min_le_init (l : List ℚ) (a : ℚ) : l.foldl min a ≤ a := by
  induction l generalizing a with
  | nil => exact le_refl a
  | cons b rest ih =>
    exact le_trans (ih (min a b)) (min_le_left a b)

theorem foldl_min_le (l : List ℚ) (a x : ℚ) (hx : x ∈ l) : l.foldl min a ≤ x := by
  induction l generalizing a with
  | nil => cases hx
  | cons b rest ih =>
    rcases List.mem_cons.mp hx with rfl | hx'
    · exact le_trans (foldl_min_le_init rest (min a x)) (min_le_right a x)
    · exact ih (min a b) hx'

theorem foldl_min_mem (l : List ℚ) (a : ℚ) : l.foldl min a ∈ a :: l := by
  induction l generalizing a with
  | nil => exact List.mem_singleton.mpr rfl
  | cons b rest ih =>
    have h := ih (min a b)
    rcases List.mem_cons.mp h with h' | h'
    · rcases min_choice a b with hab | hab
      · exact List.mem_cons.mpr (Or.inl (h'.trans hab))
      · exact List.mem_cons.mpr (Or.inr (List.mem_cons.mpr (Or.inl (h'.trans hab))))
    · exact List.mem_cons.mpr (Or.inr (List.mem_cons.mpr (Or.inr h')))

theorem init_le_foldl_max (l : List ℚ) (a : ℚ) : a ≤ l.foldl max a := by
  induction l generalizing a with
  | nil => exact le_refl a
  | cons b rest ih =>
    exact le_trans (le_max_left a b) (ih (max a b))

theorem le_foldl_max (l : List ℚ) (a x : ℚ) (hx : x ∈ l) : x ≤ l.foldl max a := by
  induction l generalizing a with
  | nil => cases hx
  | cons b rest ih =>
    rcases List.mem_cons.mp hx with rfl | hx'
    · exact le_trans (le_max_right a x) (init_le_foldl_max rest (max a x))
    · exact ih (max a b) hx'

theorem foldl_max_mem (l : List ℚ) (a : ℚ) : l.foldl max a ∈ a :: l := by
  induction l generalizing a with
  | nil => exact List.mem_singleton.mpr rfl
  | cons b rest ih =>
    have h := ih (max a b)
    rcases List.mem_cons.mp h with h' | h'
    · rcases max_choice a b with hab | hab
      · exact List.mem_cons.mpr (Or.inl (h'.trans hab))
      · exact List.mem_cons.mpr (Or.inr (List.mem_cons.mpr (Or.inl (h'.trans hab))))
    · exact List.mem_cons.mpr (Or.inr (List.mem_cons.mpr (Or.inr h')))

theorem jsMin_mem (l : List ℚ) (h : l ≠ []) : jsMin l ∈ l := by
  match l with
  | [] => exact absurd rfl h
  | a :: rest => exact foldl_min_mem rest a

theorem jsMin_le (l : List ℚ) (x : ℚ) (hx : x ∈ l) : jsMin l ≤ x := by
  match l with
  | a :: rest =>
    rcases List.mem_cons.mp hx with rfl | hx'
    · exact foldl_min_le_init rest x
    · exact foldl_min_le rest a x hx'

theorem jsMax_mem (l : List ℚ) (h : l ≠ []) : jsMax l ∈ l := by
  match l with
  | [] => exact absurd rfl h
  | a :: rest => exact foldl_max_mem rest a

theorem le_jsMax (l : List ℚ) (x : ℚ) (hx : x ∈ l) : x ≤ jsMax l := by
  match l with
  | a :: rest =>
    rcases List.mem_cons.mp hx with rfl | hx'
    · exact init_le_foldl_max rest x
    · exact le_foldl_max rest a x hx'

theorem getStats_eq_none_iff (data : List NetworkData) (t : MetricType) :
    getStats data t = none ↔ validData data t = [] := by
  rw [getStats]
  split_ifs with h
  · simpa using List.length_eq_zero.mp h
  · constructor
    · intro hcontra
      simp at hcontra
    · intro hfil
      exact absurd (by rw [hfil]; rfl) h

/-- C6: `getStats` filters to samples whose selected value metric is not the
sentinel `-1` and returns `none` exactly when that filtered set is empty — in
particular on the empty input and on any all-sentinel input. -/
theorem summarize_absent_iff (data : List NetworkData) (t : MetricType) :
    (getStats data t = none ↔
      data.filter (fun item => selPing t item != -1) = []) ∧
    getStats ([] : List NetworkData) t = none ∧
    getStats (data.map fun s => { s with ping := -1, ping_dev := -1 }) t = none := by
  refine ⟨getStats_eq_none_iff data t, (getStats_eq_none_iff [] t).mpr rfl, ?_⟩
  refine (getStats_eq_none_iff _ t).mpr ?_
  rw [validData, List.filter_map]
  cases t <;> simp [selPing, Function.comp_def]

/-- C7: whenever `getStats` produces a stats object, `avgPing` is the mean of the
valid values rounded to the nearest integer (JS ties-up rounding), `avgLoss` is
the mean of the corresponding losses rounded to two decimals, `minPing`/`maxPing`
are attained minimum/maximum over the valid values only, `dataPoints` equals the
count of non-sentinel values and never exceeds `totalPoints`, the input length. -/
theorem summarize_stats_spec (data : List NetworkData) (t : MetricType) (st : Stats)
    (h : getStats data t = some st) :
    st.avgPing = jsRound (((validData data t).map (selPing t)).sum
        / (((validData data t).map (selPing t)).length : ℚ)) ∧
    st.avgLoss = (jsRound (((validData data t).map (selLoss t)).sum
        / (((validData data t).map (selLoss t)).length : ℚ) * 100) : ℚ) / 100 ∧
    st.minPing ∈ (validData data t).map (selPing t) ∧
    (∀ x ∈ (validData data t).map (selPing t), st.minPing ≤ x) ∧
    st.maxPing ∈ (validData data t).map (selPing t) ∧
    (∀ x ∈ (validData data t).map (selPing t), x ≤ st.maxPing) ∧
    st.dataPoints = data.countP (fun item => selPing t item != -1) ∧
    st.dataPoints ≤ st.totalPoints ∧
    st.totalPoints = data.length := by
  have hne : ¬(validData data t).length = 0 := by
    intro hc
    rw [getStats, if_pos hc] at h
    exact absurd h.symm (Option.some_ne_none _)
  rw [getStats, if_neg hne] at h
  obtain rfl := (Option.some.inj h).symm
  have hvne : (validData data t).map (selPing t) ≠ [] := by
    intro hc
    exact hne (List.length_eq_zero.mpr (List.map_eq_nil_iff.mp hc))
  refine ⟨rfl, rfl, jsMin_mem _ hvne, fun x hx => jsMin_le _ x hx,
    jsMax_mem _ hvne, fun x hx => le_jsMax _ x hx, ?_, ?_, rfl⟩
  · exact (List.countP_eq_length_filter _ _).symm
  · exact List.length_filter_le _ data

/-- Instantiation of `summarize_stats_spec` on a single valid sample with ping 10
and loss 0: valid count does not exceed the total count. -/
theorem summarize_stats_spec_witness :
    ({ avgPing := 10, minPing := 10, maxPing := 10, avgLoss := 0, maxLoss := 0,
       dataPoints := 1, totalPoints := 1 } : Stats).dataPoints ≤
    ({ avgPing := 10, minPing := 10, maxPing := 10, avgLoss := 0, maxLoss := 0,
       dataPoints := 1, totalPoints := 1 } : Stats).totalPoints := by
  have hs : getStats [⟨10, 0, 20, 5⟩] MetricType.cloudflare =
      some { avgPing := 10, minPing := 10, maxPing := 10, avgLoss := 0,
             maxLoss := 0, dataPoints := 1, totalPoints := 1 } := by
    rw [getStats]
    norm_num [validData, selPing, selLoss, jsMin, jsMax, jsRound, Int.floor_eq_iff]
  exact (summarize_stats_spec [⟨10, 0, 20, 5⟩] MetricType.cloudflare _ hs).2.2.2.2.2.2.2.1

/-- C10: `getStats` selects valid samples by the ping metric only and then
aggregates their loss values as-is: a sample with a valid ping but sentinel loss
`-1` contributes its `-1` to `avgLoss` and `maxLoss`.  With one such sample the
aggregates are both `-1`; adding a second valid sample with loss `0` drags the
average to `-1/2 < 0` even though no real loss was negative. -/
theorem sentinel_loss_in_aggregates (s s' : NetworkData) (t : MetricType)
    (hp : selPing t s ≠ -1) (hl : selLoss t s = -1)
    (hp' : selPing t s' ≠ -1) (hl' : selLoss t s' = 0) :
    Option.map Stats.avgLoss (getStats [s] t) = some (-1) ∧
    Option.map Stats.maxLoss (getStats [s] t) = some (-1) ∧
    Option.map Stats.avgLoss (getStats [s, s'] t) = some (-(1 / 2)) ∧
    Option.map Stats.maxLoss (getStats [s, s'] t) = some 0 ∧
    (-(1 / 2) : ℚ) < 0 := by
  have hfil1 : validData [s] t = [s] := by
    simp [validData, hp]
  have hfil2 : validData [s, s'] t = [s, s'] := by
    simp [validData, hp, hp']
  refine ⟨?_, ?_, ?_, ?_, by norm_num⟩
  · rw [getStats, hfil1]
    norm_num [hl, jsRound, Int.floor_eq_iff]
  · rw [getStats, hfil1]
    norm_num [hl, jsMax]
  · rw [getStats, hfil2]
    norm_num [hl, hl', jsRound, Int.floor_eq_iff]
  · rw [getStats, hfil2]
    norm_num [hl, hl', jsMax]

/-- Instantiation of `sentinel_loss_in_aggregates`: the pair `(ping 10, loss -1)`
and `(ping 20, loss 0)` averages to a negative loss percentage. -/
theorem sentinel_loss_in_aggregates_witness :
    Option.map Stats.avgLoss
      (getStats [(⟨10, -1, 10, -1⟩ : NetworkData), ⟨20, 0, 20, 0⟩]
        MetricType.cloudflare) = some (-(1 / 2)) := by
  exact (sentinel_loss_in_aggregates ⟨10, -1, 10, -1⟩ ⟨20, 0, 20, 0⟩
    MetricType.cloudflare (by norm_num [selPing]) (by norm_num [selLoss])
    (by norm_num [selPing]) (by norm_num [selLoss])).2.2.1

/-- The two response body shapes of `GET /api/v1/dpip/status/{isp}/{range}`.
In the envelope shape the `now` field may itself be missing, hence `Option`. -/
inductive StatusResponse where
  | bare (samples : List NetworkData)
  | envelope (samples : List NetworkData) (now : Option ℤ)
  deriving DecidableEq, Repr

/-- Outcome of the HTTP call: a network error or non-ok status (both throw before
the body is used), or a decoded JSON body. -/
inductive FetchOutcome where
  | failure
  | success (resp : StatusResponse)
  deriving DecidableEq, Repr

/-- The component state touched by `fetchNetworkData`; `serverNow` is an `Option`
because `responseData.now` can be `undefined`. -/
structure FetchState where
  networkData : List NetworkData
  serverNow : Option ℤ
  error : String
  deriving DecidableEq, Repr

/-- The user-visible message set on sample-fetch failure
(`無法取得網路數據`, "cannot retrieve network data"). -/
def networkDataErrorMessage : String := "無法取得網路數據"

/-- Second-revision `fetchNetworkData` as a state transformer.  On failure the
catch path sets the error and clears the samples.  On success it reads
`responseData.data` and `responseData.now`: off a bare JSON array, `.data` is
`undefined` in JS and `.data.map` throws into the same catch path.  The per-item
`time: index + 1` decoration and the `lastUpdated` display state are dropped
(never consumed by the reindexer, classifier or aggregator). -/
def fetchNetworkDataV2 (outcome : FetchOutcome) (prev : FetchState) : FetchState :=
  match outcome with
  | .failure => { prev with error := networkDataErrorMessage, networkData := [] }
  | .success (.bare _) =>
      { prev with error := networkDataErrorMessage, networkData := [] }
  | .success (.envelope samples now?) =>
      { networkData := samples, serverNow := now?, error := "" }

/-- First-revision `fetchNetworkData`: reads the body as a bare array
(`data.map(...)`); calling `.map` on an envelope object throws into the catch
path. -/
def fetchNetworkDataV1 (outcome : FetchOutcome) (prev : FetchState) : FetchState :=
  match outcome with
  | .failure => { prev with error := networkDataErrorMessage, networkData := [] }
  | .success (.bare samples) => { prev with networkData := samples, error := "" }
  | .success (.envelope _ _) =>
      { prev with error := networkDataErrorMessage, networkData := [] }

/-- `const currentTime = now || Date.now()` at the head of the second-revision
`getAllTimePoints`: falls back to the local clock when `now` is absent — or `0`,
since `||` tests JS truthiness. -/
def currentTimeOf (now? : Option ℤ) (localNow : ℤ) : ℤ :=
  match now? with
  | some n => if n = 0 then localNow else n
  | none => localNow

/-- The second-revision timeline generator as `prepareScatterData` calls it:
anchored on `serverNow` when present, on the local clock otherwise. -/
def getAllTimePointsOpt (rangeMinutes : ℕ) (now? : Option ℤ) (localNow : ℤ) :
    List ℤ :=
  getAllTimePointsAnchored rangeMinutes (currentTimeOf now? localNow)

/-- Counterexample to C8 as stated: a bare-sequence response is not "accepted
without error" by the envelope-handling revision — it lands on the error path
with the samples cleared (and symmetrically the first revision rejects the
envelope shape). -/
theorem either_shape_accepted_counterexample :
    (fetchNetworkDataV2
        (FetchOutcome.success (StatusResponse.bare [⟨10, 0, 10, 0⟩]))
        { networkData := [], serverNow := none, error := "" }).error ≠ "" ∧
    (fetchNetworkDataV1
        (FetchOutcome.success (StatusResponse.envelope [⟨10, 0, 10, 0⟩] (some 1000)))
        { networkData := [], serverNow := none, error := "" }).error ≠ "" := by
  constructor
  · simp [fetchNetworkDataV2, networkDataErrorMessage]
  · simp [fetchNetworkDataV1, networkDataErrorMessage]

/-- C8 (amended): the second revision supports the authoritative-timestamp
envelope `{data, now}` — samples are taken from `data`, `now` is stored and
anchors the timeline — and when the `now` field is absent from the envelope the
timeline generator derives "now" locally as a fallback; a bare-sequence
response, however, is rejected by this revision (the first revision accepts only
the bare shape). -/
theorem envelope_response_support (samples : List NetworkData) (n : ℤ) (hn : n ≠ 0)
    (prev : FetchState) (r : ℕ) (localNow : ℤ) :
    (let st := fetchNetworkDataV2 (.success (.envelope samples (some n))) prev
     st.networkData = samples ∧ st.error = "" ∧ st.serverNow = some n ∧
     getAllTimePointsOpt r st.serverNow localNow = getAllTimePointsAnchored r n) ∧
    (let st := fetchNetworkDataV2 (.success (.envelope samples none)) prev
     st.networkData = samples ∧ st.error = "" ∧ st.serverNow = none ∧
     getAllTimePointsOpt r st.serverNow localNow =
       getAllTimePointsAnchored r localNow) ∧
    (let st := fetchNetworkDataV2 (.success (.bare samples)) prev
     st.networkData = [] ∧ st.error = networkDataErrorMessage) := by
  refine ⟨⟨rfl, rfl, rfl, ?_⟩, ⟨rfl, rfl, rfl, rfl⟩, rfl, rfl⟩
  rw [getAllTimePointsOpt]
  show getAllTimePointsAnchored r (currentTimeOf (some n) localNow) = _
  rw [currentTimeOf, if_neg hn]

/-- Instantiation of `envelope_response_support`: an envelope with `now = 1000`
is decoded into the sample state and anchors the timeline at 1000. -/
theorem envelope_response_support_witness :
    (fetchNetworkDataV2
        (FetchOutcome.success (StatusResponse.envelope [⟨10, 0, 10, 0⟩] (some 1000)))
        { networkData := [], serverNow := none, error := "" }).networkData =
      [(⟨10, 0, 10, 0⟩ : NetworkData)] ∧
    getAllTimePointsOpt 5 (some 1000) 77 = getAllTimePointsAnchored 5 1000 := by
  have h := envelope_response_support [⟨10, 0, 10, 0⟩] 1000 (by decide)
    { networkData := [], serverNow := none, error := "" } 5 77
  exact ⟨h.1.1, h.1.2.2.2⟩

/-- C9: on every sample-fetch failure (network error or non-success HTTP status),
both revisions set the error message "無法取得網路數據" ("cannot retrieve network
data") and clear the current sample set to empty — the previous samples are never
left in place. -/
theorem fetch_failure_clears (prev : FetchState) :
    (fetchNetworkDataV2 .failure prev).error = networkDataErrorMessage ∧
    (fetchNetworkDataV2 .failure prev).networkData = [] ∧
    (fetchNetworkDataV1 .failure prev).error = networkDataErrorMessage ∧
    (fetchNetworkDataV1 .failure prev).networkData = [] :=
  ⟨rfl, rfl, rfl, rfl⟩

end DpipNetworkWeb
